import Mathlib

/-!
Shallow embedding of `src/bot.py` (a Telegram front-end for Google Document AI)
and proofs about its chunked delivery, session-keyed artifact store, output
workflow and error handling.

Modelling conventions:
* Python `str` values are `List Char` (Python slicing and `in` are per code
  point, as is `List Char`).
* `context.user_data` (a Python dict of string keys to string values) is an
  association list `Store`; assignment conses, lookup takes the first hit.
* Each `async` handler is a pure function from its inputs to the updated store
  paired with the ordered list of observable effects (messages sent, menus
  shown, files written, log records).
* The remote Document AI calls and the other fallible boundary steps (file
  download, local file writes) are inputs of type `Except`: `.ok` carries the
  value the runtime produced, `.error` models a raised exception at that point.
* `save_as_docx` serializes one paragraph holding the full text; the docx
  container format is abstracted to that paragraph text.
-/

namespace DocumentBot

/-- The code points of the characters Python's default `str.strip` removes:
everything `str.isspace` accepts, i.e. all Unicode whitespace — ASCII
whitespace U+0009-U+000D and U+0020, the separators U+001C-U+001F, NEL
U+0085, NO-BREAK SPACE U+00A0, OGHAM SPACE MARK U+1680, the U+2000-U+200A
spaces, LINE SEPARATOR U+2028, PARAGRAPH SEPARATOR U+2029, NARROW NO-BREAK
SPACE U+202F, MEDIUM MATHEMATICAL SPACE U+205F, IDEOGRAPHIC SPACE U+3000. -/
def pyWhitespace : List Nat :=
  [0x09, 0x0a, 0x0b, 0x0c, 0x0d, 0x1c, 0x1d, 0x1e, 0x1f, 0x20,
   0x85, 0xa0, 0x1680, 0x2000, 0x2001, 0x2002, 0x2003, 0x2004, 0x2005,
   0x2006, 0x2007, 0x2008, 0x2009, 0x200a, 0x2028, 0x2029, 0x202f, 0x205f,
   0x3000]

/-- Python `c.isspace()` for a single character: membership in the Unicode
whitespace set. -/
def pyIsSpace (c : Char) : Bool :=
  pyWhitespace.contains c.toNat

/-- Python `s.strip()`: drop whitespace from both ends. -/
def pyStrip (s : List Char) : List Char :=
  ((s.dropWhile pyIsSpace).reverse.dropWhile pyIsSpace).reverse

/-- Python `s.endswith(suffix)`. -/
def endsWith (s suffix : List Char) : Bool :=
  suffix.isSuffixOf s

/-- The in-band error marker used by `bot.py` (`"❌" in extracted_text`;
the Python literal is this single code point, so substring containment is
membership of the character). -/
def crossChar : Char := '❌'

def unsupportedMsg : List Char := "❌ Unsupported file format.".toList
def noTextMsg : List Char := "❌ No text recognized.".toList
def noSummaryMsg : List Char := "❌ No summary could be generated.".toList
def processingMsg : List Char := "🔄 Processing file, please wait...".toList
def docErrorMsg : List Char :=
  "❌ An error occurred while processing the document. Please try again!".toList
def retrieveErrorMsg : List Char := "❌ Error retrieving processed text.".toList
def summaryRetrieveErrorMsg : List Char := "❌ Error retrieving summary.".toList
def noOriginalFileMsg : List Char :=
  "❌ Cannot find the original file for summarization.".toList
def summarizingMsg : List Char := "🔄 Summarizing document, please wait...".toList
def choiceErrorMsg : List Char :=
  "❌ An error occurred while processing your selection.".toList
def invalidOptionMsg : List Char := "❌ Invalid option.".toList
def chooseFormatMsg : List Char := "📝 Choose an output format:".toList
def chooseSummaryFormatMsg : List Char :=
  "📝 Choose an output format for the summary:".toList
def extractedHeader : List Char := "📜 **Extracted Text:**\n\n".toList
def summaryHeader : List Char := "📝 **Document Summary:**\n\n".toList

def currentFilePathKey : List Char := "current_file_path".toList
def filePathPre : List Char := "file_path_".toList
def summaryPre : List Char := "summary_".toList

/-- The key `context.user_data` map: first-hit association list; Python dict
assignment is modelled by consing the new binding in front. -/
abbrev Store := List (List Char × List Char)

/-- Python `context.user_data[key]` lookup (as an `Option`). -/
def get : Store → List Char → Option (List Char)
  | [], _ => none
  | (k, v) :: rest, key => if k = key then some v else get rest key

/-- Python `context.user_data[key] = v`. -/
def put (s : Store) (k v : List Char) : Store := (k, v) :: s

/-- Python `context.user_data.get(key, "")` (also models `.get(key)` followed
by a falsiness test, since `None` and `""` are both falsy). -/
def getD (s : Store) (k : List Char) : List Char := (get s k).getD []

/-- MIME detection of `process_document` / `summarize_document` (bot.py lines
47-53 and 77-83): JPEG/PNG suffixes map to `image/jpeg`, `.pdf` to
`application/pdf`, anything else is unsupported (`none`). -/
def detect_mime (file_path : List Char) : Option (List Char) :=
  if endsWith file_path ".jpg".toList || endsWith file_path ".jpeg".toList ||
      endsWith file_path ".png".toList then
    some "image/jpeg".toList
  else if endsWith file_path ".pdf".toList then
    some "application/pdf".toList
  else
    none

/-- Result of `process_document` / `summarize_document` together with whether
the remote `client.process_document` call was reached. -/
structure ProcOutcome where
  remoteCalled : Bool
  text : List Char
deriving DecidableEq, Repr

/-- Embedding of `process_document` (bot.py lines 37-64). `remote` is the
outcome of the remote call `client.process_document(...).document.text`
(`.error` models a raised exception there). Reading the already-downloaded
input file is assumed not to fail. -/
def process_document (file_path : List Char)
    (remote : Except (List Char) (List Char)) :
    Except (List Char) ProcOutcome :=
  match detect_mime file_path with
  | none => .ok ⟨false, unsupportedMsg⟩
  | some _ =>
    match remote with
    | .error e => .error e
    | .ok extracted_text =>
      .ok ⟨true, if (pyStrip extracted_text).isEmpty then noTextMsg else extracted_text⟩

/-- One entity of the remote summarizer's document. -/
structure Entity where
  type_ : List Char
  mention_text : List Char
deriving DecidableEq, Repr

/-- The document returned by the remote summarizer call. -/
structure DocAIResult where
  text : List Char
  entities : List Entity
deriving DecidableEq, Repr

/-- The entity loop of `summarize_document` (bot.py lines 94-97):
`summary += entity.mention_text + "\n"` for each entity whose `type_` is
`"summary"`, in document order. -/
def summary_from_entities : List Entity → List Char
  | [] => []
  | e :: rest =>
    (if e.type_ = "summary".toList then e.mention_text ++ ['\n'] else []) ++
      summary_from_entities rest

/-- Embedding of `summarize_document` (bot.py lines 67-103). `remote` is the
outcome of the remote summarizer call. -/
def summarize_document (file_path : List Char)
    (remote : Except (List Char) DocAIResult) :
    Except (List Char) ProcOutcome :=
  match detect_mime file_path with
  | none => .ok ⟨false, unsupportedMsg⟩
  | some _ =>
    match remote with
    | .error e => .error e
    | .ok doc =>
      let s0 := summary_from_entities doc.entities
      let summary := if s0.isEmpty then doc.text else s0
      .ok ⟨true, if (pyStrip summary).isEmpty then noSummaryMsg else summary⟩

/-- Embedding of `send_text_chunks` (bot.py lines 114-117): the ordered list
of message texts sent, i.e. the slices `text[i : i + chunk_size]` for
`i in range(0, len(text), chunk_size)`. (In the source `chunk_size = 0`
raises `ValueError` inside `range`; that call never occurs — the only call
sites use the default 4096 — and is modelled as sending nothing.) -/
def send_text_chunks (text : List Char) (chunk_size : Nat) : List (List Char) :=
  if _h : 0 < chunk_size ∧ 0 < text.length then
    text.take chunk_size :: send_text_chunks (text.drop chunk_size) chunk_size
  else
    []
termination_by text.length
decreasing_by
  simp only [List.length_drop]
  omega

/-- Python `s.split(c)` for a one-character separator: all parts, empty parts
kept. -/
def splitOnChar (sep : Char) : List Char → List (List Char)
  | [] => [[]]
  | x :: rest =>
    let r := splitOnChar sep rest
    if x = sep then
      [] :: r
    else
      match r with
      | [] => [[x]]
      | h :: t => (x :: h) :: t

/-- One observable effect of a handler: a sent message, a shown inline-button
menu (listed by the buttons' callback-data strings), a sent document (by its
user-facing filename and caption), a local file write, or a log record. -/
inductive Effect where
  | answerCallback : Effect
  | sentMessage : List Char → Effect
  | sentMenu : List Char → List (List Char) → Effect
  | sentDocument : List Char → List Char → Effect
  | wroteFile : List Char → List Char → Effect
  | logged : List Char → Effect
deriving DecidableEq, Repr

/-- The path `outputs/<name>.txt` (bot.py lines 191, 237). -/
def txtPath (name : List Char) : List Char :=
  "outputs/".toList ++ name ++ ".txt".toList

/-- The path `outputs/<name>.docx` written by `save_as_docx` (bot.py lines
105-111, called at 253 and 279). -/
def docxPath (name : List Char) : List Char :=
  "outputs/".toList ++ name ++ ".docx".toList

def extractedTxtFilename : List Char := "extracted_text.txt".toList
def extractedDocxFilename : List Char := "extracted_text.docx".toList
def summaryTxtFilename : List Char := "document_summary.txt".toList
def summaryDocxFilename : List Char := "document_summary.docx".toList
def txtCaption : List Char := "📄 Here is your extracted text file.".toList
def docxCaption : List Char :=
  "📜 Here is your extracted text as a Word document.".toList
def sumTxtCaption : List Char := "📄 Here is your document summary.".toList
def sumDocxCaption : List Char :=
  "📜 Here is your document summary as a Word document.".toList

/-- The five primary-output callback-data strings offered by
`send_output_options` (bot.py lines 129-141). -/
def primaryMenu (text_key : List Char) : List (List Char) :=
  [ "output_message|".toList ++ text_key,
    "output_txt|".toList ++ text_key,
    "output_both|".toList ++ text_key,
    "output_docx|".toList ++ text_key,
    "output_summarize|".toList ++ text_key ]

/-- The three summary-output callback-data strings (bot.py lines 216-224). -/
def summaryMenu (text_key : List Char) : List (List Char) :=
  [ "summary_message|".toList ++ text_key,
    "summary_txt|".toList ++ text_key,
    "summary_docx|".toList ++ text_key ]

/-- Embedding of `send_output_options` (bot.py lines 120-143). `text_key` is
the fresh 8-character key minted by `str(uuid.uuid4())[:8]`, passed in as a
parameter of the model. Stores the text under the key, snapshots
`current_file_path` under `file_path_<key>` when present, and shows the
five-option menu. -/
def send_output_options (ud : Store) (text_key text : List Char) :
    Store × List Effect :=
  let ud1 := put ud text_key text
  let ud2 :=
    match get ud1 currentFilePathKey with
    | some p => put ud1 (filePathPre ++ text_key) p
    | none => ud1
  (ud2, [Effect.sentMenu chooseFormatMsg (primaryMenu text_key)])

/-- Embedding of `handle_document` (bot.py lines 145-175). `file_name` is the
local download path, `fresh_key` the key `send_output_options` will mint,
`download` the outcome of `get_file` / `download_to_drive`, `remote` the
outcome of the remote extraction call. The surrounding `try`/`except` turns
any raised step into a log record plus the generic error message, keeping the
store mutations made before the raise. -/
def handle_document (ud : Store) (file_name fresh_key : List Char)
    (download : Except (List Char) Unit)
    (remote : Except (List Char) (List Char)) : Store × List Effect :=
  match download with
  | .error e => (ud, [.logged e, .sentMessage docErrorMsg])
  | .ok _ =>
    match process_document file_name remote with
    | .error e =>
      (put ud currentFilePathKey file_name,
       [.sentMessage processingMsg, .logged e, .sentMessage docErrorMsg])
    | .ok pr =>
      if crossChar ∈ pr.text then
        (put ud currentFilePathKey file_name,
         [.sentMessage processingMsg, .sentMessage pr.text])
      else
        ((send_output_options (put ud currentFilePathKey file_name)
            fresh_key pr.text).1,
         .sentMessage processingMsg ::
           (send_output_options (put ud currentFilePathKey file_name)
             fresh_key pr.text).2)

/-- The log text of the `ValueError` raised by unpacking
`query.data.split("|")` when the data does not have exactly two parts. -/
def valueErrorMsg : List Char := "ValueError: unpacking callback data".toList

/-- Embedding of `handle_output_choice` (bot.py lines 178-289). `data` is the
callback's data string, `sumRemote` the outcome of the remote summarizer call
(reached only from the `output_summarize` branch), `fileOps` the outcome of
the branch's first local file operation (later file operations of the same
branch are assumed to fail only if the first does). The `try`/`except`
converts any raised step into a log record plus the generic selection error
message. `query.answer()` runs before the `try`. -/
def handle_output_choice (ud : Store) (data : List Char)
    (sumRemote : Except (List Char) DocAIResult)
    (fileOps : Except (List Char) Unit) : Store × List Effect :=
  match splitOnChar '|' data with
  | [option, text_key] =>
    if (getD ud text_key).isEmpty then
      (ud, [.answerCallback, .sentMessage retrieveErrorMsg])
    else if option = "output_summarize".toList then
      if (getD ud (filePathPre ++ text_key)).isEmpty then
        (ud, [.answerCallback, .sentMessage noOriginalFileMsg])
      else
        match summarize_document (getD ud (filePathPre ++ text_key)) sumRemote with
        | .error e =>
          (ud, [.answerCallback, .sentMessage summarizingMsg, .logged e,
                .sentMessage choiceErrorMsg])
        | .ok pr =>
          if crossChar ∈ pr.text then
            (ud, [.answerCallback, .sentMessage summarizingMsg, .sentMessage pr.text])
          else
            (put ud (summaryPre ++ text_key) pr.text,
             [.answerCallback, .sentMessage summarizingMsg,
              .sentMenu chooseSummaryFormatMsg (summaryMenu text_key)])
    else if summaryPre.isPrefixOf option then
      if (getD ud (summaryPre ++ text_key)).isEmpty then
        (ud, [.answerCallback, .sentMessage summaryRetrieveErrorMsg])
      else
        match fileOps with
        | .error e => (ud, [.answerCallback, .logged e, .sentMessage choiceErrorMsg])
        | .ok _ =>
          if option = "summary_message".toList then
            (ud, .answerCallback ::
              .wroteFile (txtPath (summaryPre ++ text_key))
                (getD ud (summaryPre ++ text_key)) ::
              (send_text_chunks
                (summaryHeader ++ getD ud (summaryPre ++ text_key)) 4096).map
                Effect.sentMessage)
          else if option = "summary_txt".toList then
            (ud, [.answerCallback,
                  .wroteFile (txtPath (summaryPre ++ text_key))
                    (getD ud (summaryPre ++ text_key)),
                  .sentDocument summaryTxtFilename sumTxtCaption])
          else if option = "summary_docx".toList then
            (ud, [.answerCallback,
                  .wroteFile (txtPath (summaryPre ++ text_key))
                    (getD ud (summaryPre ++ text_key)),
                  .wroteFile (docxPath (summaryPre ++ text_key))
                    (getD ud (summaryPre ++ text_key)),
                  .sentDocument summaryDocxFilename sumDocxCaption])
          else
            (ud, [.answerCallback,
                  .wroteFile (txtPath (summaryPre ++ text_key))
                    (getD ud (summaryPre ++ text_key))])
    else
      match fileOps with
      | .error e => (ud, [.answerCallback, .logged e, .sentMessage choiceErrorMsg])
      | .ok _ =>
        if option = "output_message".toList then
          (ud, .answerCallback ::
            .wroteFile (txtPath text_key) (getD ud text_key) ::
            (send_text_chunks (extractedHeader ++ getD ud text_key) 4096).map
              Effect.sentMessage)
        else if option = "output_txt".toList then
          (ud, [.answerCallback, .wroteFile (txtPath text_key) (getD ud text_key),
                .sentDocument extractedTxtFilename txtCaption])
        else if option = "output_both".toList then
          (ud, (.answerCallback ::
            .wroteFile (txtPath text_key) (getD ud text_key) ::
            (send_text_chunks (extractedHeader ++ getD ud text_key) 4096).map
              Effect.sentMessage) ++
              [.sentDocument extractedTxtFilename txtCaption])
        else if option = "output_docx".toList then
          (ud, [.answerCallback, .wroteFile (txtPath text_key) (getD ud text_key),
                .wroteFile (docxPath text_key) (getD ud text_key),
                .sentDocument extractedDocxFilename docxCaption])
        else
          (ud, [.answerCallback, .wroteFile (txtPath text_key) (getD ud text_key),
                .sentMessage invalidOptionMsg])
  | _ =>
    (ud, [.answerCallback, .logged valueErrorMsg, .sentMessage choiceErrorMsg])

/-- The derivation of the summary artifact's store key from its parent key
(bot.py lines 214, 231, 237: `f"summary_{text_key}"`). -/
def derive (k : List Char) : List Char := summaryPre ++ k

/-- Specification-side formula for the summary text: the mention texts of the
entities classified `"summary"`, in document order, each followed by a line
separator, concatenated. -/
def spec_summary_concat (entities : List Entity) : List Char :=
  ((entities.filter (fun e => e.type_ = "summary".toList)).map
    (fun e => e.mention_text ++ ['\n'])).flatten

theorem send_text_chunks_nil (c : Nat) : send_text_chunks [] c = [] := by
  rw [send_text_chunks]
  simp

theorem send_text_chunks_pos (t : List Char) (c : Nat) (hc : 0 < c)
    (ht : 0 < t.length) :
    send_text_chunks t c = t.take c :: send_text_chunks (t.drop c) c := by
  rw [send_text_chunks]
  rw [dif_pos ⟨hc, ht⟩]

theorem send_text_chunks_flatten_aux (c : Nat) (hc : 0 < c) :
    ∀ n, ∀ t : List Char, t.length ≤ n →
      (send_text_chunks t c).flatten = t := by
  intro n
  induction n with
  | zero =>
    intro t ht
    have h0 : t = [] := List.eq_nil_of_length_eq_zero (Nat.le_zero.mp ht)
    subst h0
    rw [send_text_chunks_nil]
    rfl
  | succ n ih =>
    intro t ht
    by_cases hlen : 0 < t.length
    · rw [send_text_chunks_pos t c hc hlen, List.flatten_cons]
      have hdrop : (t.drop c).length ≤ n := by
        rw [List.length_drop]
        omega
      rw [ih (t.drop c) hdrop, List.take_append_drop]
    · have h0 : t = [] := List.eq_nil_of_length_eq_zero (by omega)
      subst h0
      rw [send_text_chunks_nil]
      rfl

theorem send_text_chunks_bound_aux (c : Nat) :
    ∀ n, ∀ t : List Char, t.length ≤ n →
      ∀ ch ∈ send_text_chunks t c, ch.length ≤ c := by
  intro n
  induction n with
  | zero =>
    intro t ht ch hch
    have h0 : t = [] := List.eq_nil_of_length_eq_zero (Nat.le_zero.mp ht)
    subst h0
    rw [send_text_chunks_nil] at hch
    exact absurd hch (List.not_mem_nil ch)
  | succ n ih =>
    intro t ht ch hch
    by_cases hcond : 0 < c ∧ 0 < t.length
    · rw [send_text_chunks_pos t c hcond.1 hcond.2] at hch
      rcases List.mem_cons.mp hch with h | h
      · subst h
        rw [List.length_take]
        omega
      · have hdrop : (t.drop c).length ≤ n := by
          rw [List.length_drop]
          omega
        exact ih (t.drop c) hdrop ch h
    · rw [send_text_chunks] at hch
      rw [dif_neg hcond] at hch
      exact absurd hch (List.not_mem_nil ch)

/-- C1: for every text and every positive chunk size, `send_text_chunks`
sends consecutive slices in order whose concatenation is exactly the input
text, and no sent chunk is longer than the chunk size. -/
theorem claim_C1_chunked_delivery (t : List Char) (c : Nat) (hc : 0 < c) :
    (send_text_chunks t c).flatten = t ∧
      ∀ ch ∈ send_text_chunks t c, ch.length ≤ c := by
  constructor
  · exact send_text_chunks_flatten_aux c hc t.length t (Nat.le_refl _)
  · exact send_text_chunks_bound_aux c t.length t (Nat.le_refl _)

/-- Witness for C1 at text `"hello world"` and chunk size 3. -/
theorem claim_C1_chunked_delivery_witness :
    0 < 3 ∧
      ((send_text_chunks "hello world".toList 3).flatten = "hello world".toList ∧
        ∀ ch ∈ send_text_chunks "hello world".toList 3, ch.length ≤ 3) :=
  ⟨by decide, claim_C1_chunked_delivery "hello world".toList 3 (by decide)⟩

theorem get_put_same (s : Store) (k v : List Char) : get (put s k v) k = some v := by
  simp [get, put]

theorem get_put_ne (s : Store) (k v K : List Char) (h : k ≠ K) :
    get (put s k v) K = get s K := by
  simp [get, put, h]

theorem splitOnChar_cons_sep (sep : Char) (l : List Char) :
    splitOnChar sep (sep :: l) = [] :: splitOnChar sep l := by
  simp [splitOnChar]

theorem splitOnChar_cons_ne (sep x : Char) (l : List Char) (hx : ¬ x = sep) :
    splitOnChar sep (x :: l) =
      match splitOnChar sep l with
      | [] => [[x]]
      | h :: t => (x :: h) :: t := by
  simp only [splitOnChar, if_neg hx]

theorem splitOnChar_no_sep (sep : Char) (s : List Char) (h : sep ∉ s) :
    splitOnChar sep s = [s] := by
  induction s with
  | nil => rfl
  | cons x rest ih =>
    have hx : ¬ x = sep := fun hc => h (hc ▸ List.mem_cons_self x rest)
    have hr : sep ∉ rest := fun hc => h (List.mem_cons_of_mem x hc)
    rw [splitOnChar_cons_ne sep x rest hx, ih hr]

theorem splitOnChar_pair (sep : Char) (a b : List Char) (ha : sep ∉ a)
    (hb : sep ∉ b) :
    splitOnChar sep (a ++ sep :: b) = [a, b] := by
  induction a with
  | nil =>
    rw [List.nil_append, splitOnChar_cons_sep, splitOnChar_no_sep sep b hb]
  | cons x rest ih =>
    have hx : ¬ x = sep := fun hc => ha (hc ▸ List.mem_cons_self x rest)
    have hr : sep ∉ rest := fun hc => ha (List.mem_cons_of_mem x hc)
    rw [List.cons_append, splitOnChar_cons_ne sep x _ hx, ih hr]

/-- C2: when the extraction call succeeds on a supported file but returns
empty or whitespace-only text, `handle_document` sends the "no text
recognized" notice, presents no output menu, and the only store change is the
`current_file_path` scratch entry — no artifact is stored under any session
key, and the handler terminates the request without retrying. -/
theorem claim_C2_empty_extraction (ud : Store) (fn fresh r : List Char)
    (hsup : detect_mime fn ≠ none) (hempty : pyStrip r = []) :
    (handle_document ud fn fresh (.ok ()) (.ok r)).2 =
        [.sentMessage processingMsg, .sentMessage noTextMsg] ∧
      (handle_document ud fn fresh (.ok ()) (.ok r)).1 =
        put ud currentFilePathKey fn ∧
      ∀ K, K ≠ currentFilePathKey →
        get (handle_document ud fn fresh (.ok ()) (.ok r)).1 K = get ud K := by
  obtain ⟨m, hm⟩ := Option.ne_none_iff_exists'.mp hsup
  have hpd : process_document fn (.ok r) = .ok ⟨true, noTextMsg⟩ := by
    unfold process_document
    rw [hm]
    simp [hempty]
  have hcross : crossChar ∈ noTextMsg := by decide
  have hres : handle_document ud fn fresh (.ok ()) (.ok r) =
      (put ud currentFilePathKey fn,
        [.sentMessage processingMsg, .sentMessage noTextMsg]) := by
    simp [handle_document, hpd, hcross]
  rw [hres]
  exact ⟨rfl, rfl, fun K hK =>
    get_put_ne ud currentFilePathKey fn K (fun hc => hK hc.symm)⟩

/-- Witness for C2: a PDF whose extraction result is whitespace-only,
including a non-ASCII whitespace character (NO-BREAK SPACE U+00A0). -/
theorem claim_C2_empty_extraction_witness :
    detect_mime "downloads/a.pdf".toList ≠ none ∧
      pyStrip " \xa0\n ".toList = [] ∧
      ((handle_document [] "downloads/a.pdf".toList "k1k2k3k4".toList
            (.ok ()) (.ok " \xa0\n ".toList)).2 =
          [.sentMessage processingMsg, .sentMessage noTextMsg] ∧
        (handle_document [] "downloads/a.pdf".toList "k1k2k3k4".toList
            (.ok ()) (.ok " \xa0\n ".toList)).1 =
          put [] currentFilePathKey "downloads/a.pdf".toList ∧
        ∀ K, K ≠ currentFilePathKey →
          get (handle_document [] "downloads/a.pdf".toList "k1k2k3k4".toList
              (.ok ()) (.ok " \xa0\n ".toList)).1 K = get [] K) :=
  ⟨by decide, by decide,
    claim_C2_empty_extraction [] "downloads/a.pdf".toList "k1k2k3k4".toList
      " \xa0\n ".toList (by decide) (by decide)⟩

/-- C3: a callback whose session key does not resolve in the store is
answered with the retrieval-error message and nothing else: the store is
returned unchanged, no file is written, and this holds for every requested
output kind. -/
theorem claim_C3_stale_session (ud : Store) (option key : List Char)
    (srem : Except (List Char) DocAIResult) (fops : Except (List Char) Unit)
    (ho : '|' ∉ option) (hk : '|' ∉ key) (hmiss : get ud key = none) :
    handle_output_choice ud (option ++ '|' :: key) srem fops =
      (ud, [.answerCallback, .sentMessage retrieveErrorMsg]) := by
  unfold handle_output_choice
  rw [splitOnChar_pair '|' option key ho hk]
  simp [getD, hmiss]

/-- Witness for C3 at a never-issued key, for a file-producing output kind. -/
theorem claim_C3_stale_session_witness :
    ('|' ∉ "output_docx".toList ∧ '|' ∉ "deadbeef".toList ∧
        get [] "deadbeef".toList = none) ∧
      handle_output_choice [] ("output_docx".toList ++ '|' :: "deadbeef".toList)
          (.ok ⟨[], []⟩) (.ok ()) =
        ([], [.answerCallback, .sentMessage retrieveErrorMsg]) :=
  ⟨⟨by decide, by decide, by decide⟩,
    claim_C3_stale_session [] "output_docx".toList "deadbeef".toList
      (.ok ⟨[], []⟩) (.ok ()) (by decide) (by decide) (by decide)⟩

theorem spec_summary_concat_cons (e : Entity) (rest : List Entity) :
    spec_summary_concat (e :: rest) =
      (if e.type_ = "summary".toList then e.mention_text ++ ['\n'] else []) ++
        spec_summary_concat rest := by
  by_cases h : e.type_ = "summary".toList
  · simp [spec_summary_concat, List.filter_cons, h]
  · have h2 : ¬ e.type_ = ['s', 'u', 'm', 'm', 'a', 'r', 'y'] := by
      simpa using h
    simp [spec_summary_concat, List.filter_cons, h2]

theorem summary_from_entities_spec (es : List Entity) :
    summary_from_entities es = spec_summary_concat es := by
  induction es with
  | nil => rfl
  | cons e rest ih =>
    simp only [summary_from_entities]
    rw [spec_summary_concat_cons, ih]

/-- C4: the summary text of `summarize_document` is the concatenation, in
document order, of the mention texts of the entities typed `"summary"`, each
followed by a newline; with no such entity it falls back to the document's
whole text; entities `[summary : A, summary : B]` yield exactly `"A\nB\n"`. -/
theorem claim_C4_summary_concatenation :
    (∀ es, summary_from_entities es = spec_summary_concat es) ∧
      summarize_document "doc.pdf".toList
          (.ok ⟨"full text".toList,
            [⟨"summary".toList, "A".toList⟩, ⟨"summary".toList, "B".toList⟩]⟩) =
        .ok ⟨true, "A\nB\n".toList⟩ ∧
      summarize_document "doc.pdf".toList
          (.ok ⟨"full text".toList, [⟨"other".toList, "X".toList⟩]⟩) =
        .ok ⟨true, "full text".toList⟩ :=
  ⟨summary_from_entities_spec, by rfl, by rfl⟩

/-- C5: the summary-key derivation `derive k = "summary_" ++ k` is
deterministic, injective, and never collides with an 8-character session
key. -/
theorem claim_C5_key_derivation (k1 k2 : List Char) :
    derive k1 = derive k1 ∧
      (k1 ≠ k2 → derive k1 ≠ derive k2) ∧
      (k1.length = 8 → k2.length = 8 → derive k1 ≠ k2) := by
  refine ⟨rfl, ?_, ?_⟩
  · intro hne hc
    exact hne (List.append_cancel_left hc)
  · intro h1 h2 hc
    have hlen := congrArg List.length hc
    have hpre : summaryPre.length = 8 := by decide
    rw [derive, List.length_append] at hlen
    omega

/-- Witness for C5 at two distinct 8-character keys. -/
theorem claim_C5_key_derivation_witness :
    ("abcd1234".toList ≠ "efgh5678".toList ∧
        derive "abcd1234".toList ≠ derive "efgh5678".toList) ∧
      ("abcd1234".toList.length = 8 ∧ "efgh5678".toList.length = 8 ∧
        derive "abcd1234".toList ≠ "efgh5678".toList) :=
  ⟨⟨by decide,
      (claim_C5_key_derivation "abcd1234".toList "efgh5678".toList).2.1 (by decide)⟩,
    ⟨by decide, by decide,
      (claim_C5_key_derivation "abcd1234".toList "efgh5678".toList).2.2
        (by decide) (by decide)⟩⟩

theorem isEmpty_false_of_ne_nil {l : List Char} (h : l ≠ []) :
    l.isEmpty = false := by
  cases l with
  | nil => exact absurd rfl h
  | cons a l => rfl

/-- Counterexample to C6 as stated: with an empty store, uploading a file
with an unrecognized suffix mutates program state — `handle_document` records
the download path under `current_file_path` before the format check. -/
theorem claim_C6_counterexample :
    detect_mime "downloads/a.docx".toList = none ∧
      get ([] : Store) currentFilePathKey = none ∧
      get (handle_document [] "downloads/a.docx".toList "k1k2k3k4".toList
          (.ok ()) (.ok "hi".toList)).1 currentFilePathKey =
        some "downloads/a.docx".toList := by
  refine ⟨by decide, rfl, ?_⟩
  rfl

/-- C6 (amended): for an unsupported suffix both processing functions
short-circuit with the domain error before the remote call — the remote
outcome is never consulted, even a raising one — the failure is reported
inline, and no artifact is stored under any session key; the upload path's
only state change is the transient `current_file_path` entry, and the
summarize path changes nothing. -/
theorem claim_C6_unsupported_format (ud : Store) (fn : List Char)
    (hun : detect_mime fn = none) :
    (∀ rem, process_document fn rem = .ok ⟨false, unsupportedMsg⟩) ∧
      (∀ rem, summarize_document fn rem = .ok ⟨false, unsupportedMsg⟩) ∧
      (∀ fresh rem,
        (handle_document ud fn fresh (.ok ()) rem).2 =
            [.sentMessage processingMsg, .sentMessage unsupportedMsg] ∧
          (handle_document ud fn fresh (.ok ()) rem).1 =
            put ud currentFilePathKey fn ∧
          ∀ K, K ≠ currentFilePathKey →
            get (handle_document ud fn fresh (.ok ()) rem).1 K = get ud K) ∧
      (∀ key srem fops, '|' ∉ key → getD ud key ≠ [] →
        getD ud (filePathPre ++ key) = fn → fn ≠ [] →
        handle_output_choice ud ("output_summarize".toList ++ '|' :: key)
            srem fops =
          (ud, [.answerCallback, .sentMessage summarizingMsg,
                .sentMessage unsupportedMsg])) := by
  have hps : ∀ rem, process_document fn rem = .ok ⟨false, unsupportedMsg⟩ := by
    intro rem
    unfold process_document
    rw [hun]
  have hss : ∀ srem, summarize_document fn srem = .ok ⟨false, unsupportedMsg⟩ := by
    intro srem
    unfold summarize_document
    rw [hun]
  have hcross : crossChar ∈ unsupportedMsg := by decide
  refine ⟨hps, hss, ?_, ?_⟩
  · intro fresh rem
    have hres : handle_document ud fn fresh (.ok ()) rem =
        (put ud currentFilePathKey fn,
          [.sentMessage processingMsg, .sentMessage unsupportedMsg]) := by
      simp [handle_document, hps rem, hcross]
    rw [hres]
    exact ⟨rfl, rfl, fun K hK =>
      get_put_ne ud currentFilePathKey fn K (fun hc => hK hc.symm)⟩
  · intro key srem fops hk hkey hfp hfn
    have hsplit := splitOnChar_pair '|' "output_summarize".toList key
      (by decide) hk
    have hfpn : getD ud (filePathPre ++ key) ≠ [] := by
      rw [hfp]
      exact hfn
    have hsum : summarize_document (getD ud (filePathPre ++ key)) srem =
        .ok ⟨false, unsupportedMsg⟩ := by
      rw [hfp]
      exact hss srem
    unfold handle_output_choice
    rw [hsplit]
    simp [hkey, hfpn, hsum, hcross]

/-- Witness for the amended C6 on the file `downloads/a.docx`. -/
theorem claim_C6_unsupported_format_witness :
    detect_mime "downloads/a.docx".toList = none ∧
      (∀ rem, process_document "downloads/a.docx".toList rem =
        .ok ⟨false, unsupportedMsg⟩) ∧
      handle_output_choice
          [("k1k2k3k4".toList, "hi".toList),
           (filePathPre ++ "k1k2k3k4".toList, "downloads/a.docx".toList)]
          ("output_summarize".toList ++ '|' :: "k1k2k3k4".toList)
          (.ok ⟨[], []⟩) (.ok ()) =
        ([("k1k2k3k4".toList, "hi".toList),
          (filePathPre ++ "k1k2k3k4".toList, "downloads/a.docx".toList)],
         [.answerCallback, .sentMessage summarizingMsg,
          .sentMessage unsupportedMsg]) :=
  ⟨by decide,
    (claim_C6_unsupported_format
        [("k1k2k3k4".toList, "hi".toList),
         (filePathPre ++ "k1k2k3k4".toList, "downloads/a.docx".toList)]
        "downloads/a.docx".toList (by decide)).1,
    (claim_C6_unsupported_format
        [("k1k2k3k4".toList, "hi".toList),
         (filePathPre ++ "k1k2k3k4".toList, "downloads/a.docx".toList)]
        "downloads/a.docx".toList (by decide)).2.2.2 "k1k2k3k4".toList
      (.ok ⟨[], []⟩) (.ok ()) (by decide) (by decide) (by decide) (by decide)⟩

theorem send_output_options_store (ud : Store) (k t : List Char) :
    (send_output_options ud k t).1 = put ud k t ∨
      ∃ p, (send_output_options ud k t).1 =
        put (put ud k t) (filePathPre ++ k) p := by
  unfold send_output_options
  cases h : get (put ud k t) currentFilePathKey with
  | none =>
    left
    simp [h]
  | some p =>
    right
    exact ⟨p, by simp [h]⟩

theorem handle_output_choice_store (ud : Store) (data : List Char)
    (srem : Except (List Char) DocAIResult) (fops : Except (List Char) Unit) :
    (handle_output_choice ud data srem fops).1 = ud ∨
      ∃ k v, (handle_output_choice ud data srem fops).1 =
        put ud (summaryPre ++ k) v := by
  unfold handle_output_choice
  repeat' split
  all_goals first
    | exact Or.inl rfl
    | exact Or.inr ⟨_, _, rfl⟩

theorem handle_document_store (ud : Store) (fn fresh : List Char)
    (dl : Except (List Char) Unit) (rem : Except (List Char) (List Char)) :
    (handle_document ud fn fresh dl rem).1 = ud ∨
      (handle_document ud fn fresh dl rem).1 = put ud currentFilePathKey fn ∨
      ∃ t, (handle_document ud fn fresh dl rem).1 =
        (send_output_options (put ud currentFilePathKey fn) fresh t).1 := by
  unfold handle_document
  repeat' split
  all_goals first
    | exact Or.inl rfl
    | exact Or.inr (Or.inl rfl)
    | exact Or.inr (Or.inr ⟨_, rfl⟩)

/-- C7: once a primary artifact sits under an 8-character session key K
(a uuid-hex slice, hence containing no underscore), no handler invocation
changes the value stored at K: `handle_output_choice` writes only under
`summary_`-derived keys, and a later upload writes only `current_file_path`,
the freshly minted key (distinct from K by uuid freshness) and its
`file_path_` companion. -/
theorem claim_C7_primary_immutability (ud : Store) (K : List Char)
    (hK : '_' ∉ K) :
    (∀ data srem fops,
        get (handle_output_choice ud data srem fops).1 K = get ud K) ∧
      ∀ fn fresh dl rem, fresh ≠ K →
        get (handle_document ud fn fresh dl rem).1 K = get ud K := by
  have hKc : currentFilePathKey ≠ K := fun hc =>
    hK (hc ▸ (by decide : '_' ∈ currentFilePathKey))
  have hKs : ∀ k, summaryPre ++ k ≠ K := fun k hc =>
    hK (hc ▸ List.mem_append_left k (by decide : '_' ∈ summaryPre))
  have hKf : ∀ k, filePathPre ++ k ≠ K := fun k hc =>
    hK (hc ▸ List.mem_append_left k (by decide : '_' ∈ filePathPre))
  constructor
  · intro data srem fops
    rcases handle_output_choice_store ud data srem fops with h | ⟨k, v, h⟩
    · rw [h]
    · rw [h, get_put_ne _ _ _ _ (hKs k)]
  · intro fn fresh dl rem hfresh
    rcases handle_document_store ud fn fresh dl rem with h | h | ⟨t, h⟩
    · rw [h]
    · rw [h, get_put_ne _ _ _ _ hKc]
    · rw [h]
      rcases send_output_options_store (put ud currentFilePathKey fn) fresh t
        with h2 | ⟨p, h2⟩
      · rw [h2, get_put_ne _ _ _ _ hfresh, get_put_ne _ _ _ _ hKc]
      · rw [h2, get_put_ne _ _ _ _ (hKf fresh), get_put_ne _ _ _ _ hfresh,
          get_put_ne _ _ _ _ hKc]

/-- Witness for C7: the artifact at key `abcd1234` survives a summarize
callback and a later upload minting key `zzzz9999`. -/
theorem claim_C7_primary_immutability_witness :
    '_' ∉ "abcd1234".toList ∧
      "zzzz9999".toList ≠ "abcd1234".toList ∧
      get (handle_output_choice [("abcd1234".toList, "hi".toList)]
          "output_txt|abcd1234".toList (.ok ⟨[], []⟩) (.ok ())).1
          "abcd1234".toList =
        get [("abcd1234".toList, "hi".toList)] "abcd1234".toList ∧
      get (handle_document [("abcd1234".toList, "hi".toList)]
          "downloads/b.pdf".toList "zzzz9999".toList (.ok ())
          (.ok "new text".toList)).1 "abcd1234".toList =
        get [("abcd1234".toList, "hi".toList)] "abcd1234".toList :=
  ⟨by decide, by decide,
    (claim_C7_primary_immutability [("abcd1234".toList, "hi".toList)]
        "abcd1234".toList (by decide)).1 "output_txt|abcd1234".toList
      (.ok ⟨[], []⟩) (.ok ()),
    (claim_C7_primary_immutability [("abcd1234".toList, "hi".toList)]
        "abcd1234".toList (by decide)).2 "downloads/b.pdf".toList
      "zzzz9999".toList (.ok ()) (.ok "new text".toList) (by decide)⟩

/-- C8: each fault injected at a modelled fallible step of a top-level
handler — download, remote extraction, remote summarization, local file
rendering, and the `ValueError` from malformed callback data — is absorbed
at that handler's boundary: the handler still returns normally, its effect
trace ends with a log record followed by the user-facing generic error
message, and the store is exactly what the non-raising prefix of the handler
wrote, so one failing session perturbs no other session's artifacts. -/
theorem claim_C8_boundary_error_handling (ud : Store) (e : List Char) :
    (∀ fn fresh rem,
        handle_document ud fn fresh (.error e) rem =
          (ud, [.logged e, .sentMessage docErrorMsg])) ∧
      (∀ fn fresh, detect_mime fn ≠ none →
        handle_document ud fn fresh (.ok ()) (.error e) =
          (put ud currentFilePathKey fn,
           [.sentMessage processingMsg, .logged e, .sentMessage docErrorMsg])) ∧
      (∀ data srem fops, '|' ∉ data →
        handle_output_choice ud data srem fops =
          (ud, [.answerCallback, .logged valueErrorMsg,
                .sentMessage choiceErrorMsg])) ∧
      (∀ key fops, '|' ∉ key → getD ud key ≠ [] →
        getD ud (filePathPre ++ key) ≠ [] →
        detect_mime (getD ud (filePathPre ++ key)) ≠ none →
        handle_output_choice ud ("output_summarize".toList ++ '|' :: key)
            (.error e) fops =
          (ud, [.answerCallback, .sentMessage summarizingMsg, .logged e,
                .sentMessage choiceErrorMsg])) ∧
      (∀ option key srem, '|' ∉ option → '|' ∉ key → getD ud key ≠ [] →
        option ≠ "output_summarize".toList →
        summaryPre.isPrefixOf option = false →
        handle_output_choice ud (option ++ '|' :: key) srem (.error e) =
          (ud, [.answerCallback, .logged e, .sentMessage choiceErrorMsg])) ∧
      (∀ option key srem, '|' ∉ option → '|' ∉ key → getD ud key ≠ [] →
        getD ud (summaryPre ++ key) ≠ [] →
        option ≠ "output_summarize".toList →
        summaryPre.isPrefixOf option = true →
        handle_output_choice ud (option ++ '|' :: key) srem (.error e) =
          (ud, [.answerCallback, .logged e, .sentMessage choiceErrorMsg])) := by
  refine ⟨fun fn fresh rem => rfl, ?_, ?_, ?_, ?_, ?_⟩
  · intro fn fresh hsup
    obtain ⟨m, hm⟩ := Option.ne_none_iff_exists'.mp hsup
    have hpd : process_document fn (.error e) = .error e := by
      unfold process_document
      rw [hm]
    simp [handle_document, hpd]
  · intro data srem fops hd
    unfold handle_output_choice
    rw [splitOnChar_no_sep '|' data hd]
  · intro key fops hk hkey hfpn hsup
    obtain ⟨m, hm⟩ := Option.ne_none_iff_exists'.mp hsup
    have hsum : summarize_document (getD ud (filePathPre ++ key)) (.error e) =
        .error e := by
      unfold summarize_document
      rw [hm]
    unfold handle_output_choice
    rw [splitOnChar_pair '|' "output_summarize".toList key (by decide) hk]
    simp [hkey, hfpn, hsum]
  · intro option key srem ho hk hkey hsumz hpre
    have hsumz2 : ¬ option =
        ['o', 'u', 't', 'p', 'u', 't', '_', 's', 'u', 'm', 'm', 'a', 'r',
         'i', 'z', 'e'] := by
      simpa using hsumz
    unfold handle_output_choice
    rw [splitOnChar_pair '|' option key ho hk]
    simp [hkey, hsumz2, hpre]
  · intro option key srem ho hk hkey hsumk hsumz hpre
    have hsumz2 : ¬ option =
        ['o', 'u', 't', 'p', 'u', 't', '_', 's', 'u', 'm', 'm', 'a', 'r',
         'i', 'z', 'e'] := by
      simpa using hsumz
    unfold handle_output_choice
    rw [splitOnChar_pair '|' option key ho hk]
    simp [hkey, hsumk, hsumz2, hpre]

/-- Witness for C8 across all six injected-fault cases, over one concrete
session store. -/
theorem claim_C8_boundary_error_handling_witness :
    handle_document
        [("abcd1234".toList, "hi".toList),
         (filePathPre ++ "abcd1234".toList, "downloads/a.pdf".toList),
         (summaryPre ++ "abcd1234".toList, "sum".toList)]
        "downloads/a.pdf".toList "zzzz9999".toList (.error "boom".toList)
        (.ok "hi".toList) =
      ([("abcd1234".toList, "hi".toList),
        (filePathPre ++ "abcd1234".toList, "downloads/a.pdf".toList),
        (summaryPre ++ "abcd1234".toList, "sum".toList)],
       [.logged "boom".toList, .sentMessage docErrorMsg]) ∧
      handle_document
          [("abcd1234".toList, "hi".toList),
           (filePathPre ++ "abcd1234".toList, "downloads/a.pdf".toList),
           (summaryPre ++ "abcd1234".toList, "sum".toList)]
          "downloads/a.pdf".toList "zzzz9999".toList (.ok ())
          (.error "boom".toList) =
        (put [("abcd1234".toList, "hi".toList),
              (filePathPre ++ "abcd1234".toList, "downloads/a.pdf".toList),
              (summaryPre ++ "abcd1234".toList, "sum".toList)]
          currentFilePathKey "downloads/a.pdf".toList,
         [.sentMessage processingMsg, .logged "boom".toList,
          .sentMessage docErrorMsg]) ∧
      handle_output_choice
          [("abcd1234".toList, "hi".toList),
           (filePathPre ++ "abcd1234".toList, "downloads/a.pdf".toList),
           (summaryPre ++ "abcd1234".toList, "sum".toList)]
          "garbage".toList (.ok ⟨[], []⟩) (.ok ()) =
        ([("abcd1234".toList, "hi".toList),
          (filePathPre ++ "abcd1234".toList, "downloads/a.pdf".toList),
          (summaryPre ++ "abcd1234".toList, "sum".toList)],
         [.answerCallback, .logged valueErrorMsg, .sentMessage choiceErrorMsg]) ∧
      handle_output_choice
          [("abcd1234".toList, "hi".toList),
           (filePathPre ++ "abcd1234".toList, "downloads/a.pdf".toList),
           (summaryPre ++ "abcd1234".toList, "sum".toList)]
          ("output_summarize".toList ++ '|' :: "abcd1234".toList)
          (.error "boom".toList) (.ok ()) =
        ([("abcd1234".toList, "hi".toList),
          (filePathPre ++ "abcd1234".toList, "downloads/a.pdf".toList),
          (summaryPre ++ "abcd1234".toList, "sum".toList)],
         [.answerCallback, .sentMessage summarizingMsg, .logged "boom".toList,
          .sentMessage choiceErrorMsg]) ∧
      handle_output_choice
          [("abcd1234".toList, "hi".toList),
           (filePathPre ++ "abcd1234".toList, "downloads/a.pdf".toList),
           (summaryPre ++ "abcd1234".toList, "sum".toList)]
          ("output_txt".toList ++ '|' :: "abcd1234".toList) (.ok ⟨[], []⟩)
          (.error "boom".toList) =
        ([("abcd1234".toList, "hi".toList),
          (filePathPre ++ "abcd1234".toList, "downloads/a.pdf".toList),
          (summaryPre ++ "abcd1234".toList, "sum".toList)],
         [.answerCallback, .logged "boom".toList, .sentMessage choiceErrorMsg]) ∧
      handle_output_choice
          [("abcd1234".toList, "hi".toList),
           (filePathPre ++ "abcd1234".toList, "downloads/a.pdf".toList),
           (summaryPre ++ "abcd1234".toList, "sum".toList)]
          ("summary_txt".toList ++ '|' :: "abcd1234".toList) (.ok ⟨[], []⟩)
          (.error "boom".toList) =
        ([("abcd1234".toList, "hi".toList),
          (filePathPre ++ "abcd1234".toList, "downloads/a.pdf".toList),
          (summaryPre ++ "abcd1234".toList, "sum".toList)],
         [.answerCallback, .logged "boom".toList, .sentMessage choiceErrorMsg]) :=
  ⟨(claim_C8_boundary_error_handling
      [("abcd1234".toList, "hi".toList),
       (filePathPre ++ "abcd1234".toList, "downloads/a.pdf".toList),
       (summaryPre ++ "abcd1234".toList, "sum".toList)] "boom".toList).1
      "downloads/a.pdf".toList "zzzz9999".toList (.ok "hi".toList),
   (claim_C8_boundary_error_handling
      [("abcd1234".toList, "hi".toList),
       (filePathPre ++ "abcd1234".toList, "downloads/a.pdf".toList),
       (summaryPre ++ "abcd1234".toList, "sum".toList)] "boom".toList).2.1
      "downloads/a.pdf".toList "zzzz9999".toList (by decide),
   (claim_C8_boundary_error_handling
      [("abcd1234".toList, "hi".toList),
       (filePathPre ++ "abcd1234".toList, "downloads/a.pdf".toList),
       (summaryPre ++ "abcd1234".toList, "sum".toList)] "boom".toList).2.2.1
      "garbage".toList (.ok ⟨[], []⟩) (.ok ()) (by decide),
   (claim_C8_boundary_error_handling
      [("abcd1234".toList, "hi".toList),
       (filePathPre ++ "abcd1234".toList, "downloads/a.pdf".toList),
       (summaryPre ++ "abcd1234".toList, "sum".toList)] "boom".toList).2.2.2.1
      "abcd1234".toList (.ok ()) (by decide) (by decide) (by decide) (by decide),
   (claim_C8_boundary_error_handling
      [("abcd1234".toList, "hi".toList),
       (filePathPre ++ "abcd1234".toList, "downloads/a.pdf".toList),
       (summaryPre ++ "abcd1234".toList, "sum".toList)] "boom".toList).2.2.2.2.1
      "output_txt".toList "abcd1234".toList (.ok ⟨[], []⟩) (by decide)
      (by decide) (by decide) (by decide) (by decide),
   (claim_C8_boundary_error_handling
      [("abcd1234".toList, "hi".toList),
       (filePathPre ++ "abcd1234".toList, "downloads/a.pdf".toList),
       (summaryPre ++ "abcd1234".toList, "sum".toList)] "boom".toList).2.2.2.2.2
      "summary_txt".toList "abcd1234".toList (.ok ⟨[], []⟩) (by decide)
      (by decide) (by decide) (by decide) (by decide) (by decide)⟩

theorem filePathPre_append_ne (k : List Char) : filePathPre ++ k ≠ k := by
  intro hc
  have hlen := congrArg List.length hc
  have h10 : filePathPre.length = 10 := by decide
  rw [List.length_append] at hlen
  omega

/-- C9: error signaling is in-band via the character '❌': after a successful
extraction call on a supported file, `handle_document` stores the text under
the fresh key and presents the output menu exactly when the processed text
does not contain '❌', and otherwise echoes the text as a failure reply and
leaves the fresh key unwritten; the summarize flow likewise stores the
summary and offers its menu exactly when the summary contains no '❌'. In
particular a legitimately extracted text that happens to contain '❌' is
reported as a failure and never stored. -/
theorem claim_C9_inband_error_marker (ud : Store) :
    (∀ fn fresh r, detect_mime fn ≠ none → crossChar ∈ r → pyStrip r ≠ [] →
        handle_document ud fn fresh (.ok ()) (.ok r) =
          (put ud currentFilePathKey fn,
           [.sentMessage processingMsg, .sentMessage r])) ∧
      (∀ fn fresh r, detect_mime fn ≠ none → crossChar ∉ r → pyStrip r ≠ [] →
        (handle_document ud fn fresh (.ok ()) (.ok r)).2 =
            [.sentMessage processingMsg,
             .sentMenu chooseFormatMsg (primaryMenu fresh)] ∧
          get (handle_document ud fn fresh (.ok ()) (.ok r)).1 fresh = some r) ∧
      (∀ key srem fops s, '|' ∉ key → getD ud key ≠ [] →
        getD ud (filePathPre ++ key) ≠ [] →
        summarize_document (getD ud (filePathPre ++ key)) srem = .ok ⟨true, s⟩ →
        crossChar ∈ s →
        handle_output_choice ud ("output_summarize".toList ++ '|' :: key)
            srem fops =
          (ud, [.answerCallback, .sentMessage summarizingMsg,
                .sentMessage s])) ∧
      (∀ key srem fops s, '|' ∉ key → getD ud key ≠ [] →
        getD ud (filePathPre ++ key) ≠ [] →
        summarize_document (getD ud (filePathPre ++ key)) srem = .ok ⟨true, s⟩ →
        crossChar ∉ s →
        handle_output_choice ud ("output_summarize".toList ++ '|' :: key)
            srem fops =
          (put ud (summaryPre ++ key) s,
           [.answerCallback, .sentMessage summarizingMsg,
            .sentMenu chooseSummaryFormatMsg (summaryMenu key)])) := by
  refine ⟨?_, ?_, ?_, ?_⟩
  · intro fn fresh r hsup hcr hstrip
    obtain ⟨m, hm⟩ := Option.ne_none_iff_exists'.mp hsup
    have hpd : process_document fn (.ok r) = .ok ⟨true, r⟩ := by
      unfold process_document
      rw [hm]
      simp [isEmpty_false_of_ne_nil hstrip]
    simp [handle_document, hpd, hcr]
  · intro fn fresh r hsup hcr hstrip
    obtain ⟨m, hm⟩ := Option.ne_none_iff_exists'.mp hsup
    have hpd : process_document fn (.ok r) = .ok ⟨true, r⟩ := by
      unfold process_document
      rw [hm]
      simp [isEmpty_false_of_ne_nil hstrip]
    have hres : handle_document ud fn fresh (.ok ()) (.ok r) =
        ((send_output_options (put ud currentFilePathKey fn) fresh r).1,
         .sentMessage processingMsg ::
           (send_output_options (put ud currentFilePathKey fn) fresh r).2) := by
      simp [handle_document, hpd, hcr]
    rw [hres]
    constructor
    · rfl
    · rcases send_output_options_store (put ud currentFilePathKey fn) fresh r
        with h | ⟨p, h⟩
      · rw [h, get_put_same]
      · rw [h, get_put_ne _ _ _ _ (filePathPre_append_ne fresh), get_put_same]
  · intro key srem fops s hk hkey hfpn hsum hcr
    unfold handle_output_choice
    rw [splitOnChar_pair '|' "output_summarize".toList key (by decide) hk]
    simp [hkey, hfpn, hsum, hcr]
  · intro key srem fops s hk hkey hfpn hsum hcr
    unfold handle_output_choice
    rw [splitOnChar_pair '|' "output_summarize".toList key (by decide) hk]
    simp [hkey, hfpn, hsum, hcr]

/-- Witness for C9 over a concrete store: an extraction result with and
without '❌', and a summarizer result with and without '❌'. -/
theorem claim_C9_inband_error_marker_witness :
    handle_document
        [("abcd1234".toList, "hi".toList),
         (filePathPre ++ "abcd1234".toList, "downloads/a.pdf".toList)]
        "downloads/a.pdf".toList "zzzz9999".toList (.ok ())
        (.ok "bad ❌ text".toList) =
      (put [("abcd1234".toList, "hi".toList),
            (filePathPre ++ "abcd1234".toList, "downloads/a.pdf".toList)]
        currentFilePathKey "downloads/a.pdf".toList,
       [.sentMessage processingMsg, .sentMessage "bad ❌ text".toList]) ∧
      ((handle_document
          [("abcd1234".toList, "hi".toList),
           (filePathPre ++ "abcd1234".toList, "downloads/a.pdf".toList)]
          "downloads/a.pdf".toList "zzzz9999".toList (.ok ())
          (.ok "good text".toList)).2 =
          [.sentMessage processingMsg,
           .sentMenu chooseFormatMsg (primaryMenu "zzzz9999".toList)] ∧
        get (handle_document
            [("abcd1234".toList, "hi".toList),
             (filePathPre ++ "abcd1234".toList, "downloads/a.pdf".toList)]
            "downloads/a.pdf".toList "zzzz9999".toList (.ok ())
            (.ok "good text".toList)).1 "zzzz9999".toList =
          some "good text".toList) ∧
      handle_output_choice
          [("abcd1234".toList, "hi".toList),
           (filePathPre ++ "abcd1234".toList, "downloads/a.pdf".toList)]
          ("output_summarize".toList ++ '|' :: "abcd1234".toList)
          (.ok ⟨"has ❌ mark".toList, []⟩) (.ok ()) =
        ([("abcd1234".toList, "hi".toList),
          (filePathPre ++ "abcd1234".toList, "downloads/a.pdf".toList)],
         [.answerCallback, .sentMessage summarizingMsg,
          .sentMessage "has ❌ mark".toList]) ∧
      handle_output_choice
          [("abcd1234".toList, "hi".toList),
           (filePathPre ++ "abcd1234".toList, "downloads/a.pdf".toList)]
          ("output_summarize".toList ++ '|' :: "abcd1234".toList)
          (.ok ⟨"clean summary".toList, []⟩) (.ok ()) =
        (put [("abcd1234".toList, "hi".toList),
              (filePathPre ++ "abcd1234".toList, "downloads/a.pdf".toList)]
          (summaryPre ++ "abcd1234".toList) "clean summary".toList,
         [.answerCallback, .sentMessage summarizingMsg,
          .sentMenu chooseSummaryFormatMsg (summaryMenu "abcd1234".toList)]) :=
  ⟨(claim_C9_inband_error_marker
      [("abcd1234".toList, "hi".toList),
       (filePathPre ++ "abcd1234".toList, "downloads/a.pdf".toList)]).1
      "downloads/a.pdf".toList "zzzz9999".toList "bad ❌ text".toList
      (by decide) (by decide) (by decide),
   (claim_C9_inband_error_marker
      [("abcd1234".toList, "hi".toList),
       (filePathPre ++ "abcd1234".toList, "downloads/a.pdf".toList)]).2.1
      "downloads/a.pdf".toList "zzzz9999".toList "good text".toList
      (by decide) (by decide) (by decide),
   (claim_C9_inband_error_marker
      [("abcd1234".toList, "hi".toList),
       (filePathPre ++ "abcd1234".toList, "downloads/a.pdf".toList)]).2.2.1
      "abcd1234".toList (.ok ⟨"has ❌ mark".toList, []⟩) (.ok ())
      "has ❌ mark".toList (by decide) (by decide) (by decide) (by rfl)
      (by decide),
   (claim_C9_inband_error_marker
      [("abcd1234".toList, "hi".toList),
       (filePathPre ++ "abcd1234".toList, "downloads/a.pdf".toList)]).2.2.2
      "abcd1234".toList (.ok ⟨"clean summary".toList, []⟩) (.ok ())
      "clean summary".toList (by decide) (by decide) (by decide) (by rfl)
      (by decide)⟩

/-- C10: for a resolvable primary key, every option that is neither
`output_summarize` nor `summary_`-prefixed writes `outputs/<key>.txt` with
the full extracted text before dispatching — the write is the first effect
after the callback acknowledgment — including for the inline-only
`output_message` kind and for unrecognized labels answered with "Invalid
option"; analogously every resolvable `summary_`-prefixed choice first
writes `outputs/summary_<key>.txt` with the stored summary, message-only
delivery included. -/
theorem claim_C10_write_before_dispatch (ud : Store) (option key : List Char)
    (srem : Except (List Char) DocAIResult)
    (ho : '|' ∉ option) (hk : '|' ∉ key) :
    (getD ud key ≠ [] → option ≠ "output_summarize".toList →
      summaryPre.isPrefixOf option = false →
      ∃ rest, (handle_output_choice ud (option ++ '|' :: key) srem (.ok ())).2 =
        .answerCallback :: .wroteFile (txtPath key) (getD ud key) :: rest) ∧
      (getD ud key ≠ [] → option ≠ "output_summarize".toList →
        summaryPre.isPrefixOf option = true →
        getD ud (summaryPre ++ key) ≠ [] →
        ∃ rest,
          (handle_output_choice ud (option ++ '|' :: key) srem (.ok ())).2 =
            .answerCallback ::
              .wroteFile (txtPath (summaryPre ++ key))
                (getD ud (summaryPre ++ key)) :: rest) := by
  constructor
  · intro hkey hsumz hpre
    have he : ¬ (getD ud key).isEmpty = true := by
      rw [isEmpty_false_of_ne_nil hkey]
      exact Bool.false_ne_true
    have hpre2 : ¬ summaryPre.isPrefixOf option = true := by
      rw [hpre]
      exact Bool.false_ne_true
    unfold handle_output_choice
    rw [splitOnChar_pair '|' option key ho hk]
    dsimp only
    rw [if_neg he, if_neg hsumz, if_neg hpre2]
    repeat' split
    all_goals exact ⟨_, rfl⟩
  · intro hkey hsumz hpre hsumk
    have he : ¬ (getD ud key).isEmpty = true := by
      rw [isEmpty_false_of_ne_nil hkey]
      exact Bool.false_ne_true
    have hsk : ¬ (getD ud (summaryPre ++ key)).isEmpty = true := by
      rw [isEmpty_false_of_ne_nil hsumk]
      exact Bool.false_ne_true
    unfold handle_output_choice
    rw [splitOnChar_pair '|' option key ho hk]
    dsimp only
    rw [if_neg he, if_neg hsumz, if_pos hpre, if_neg hsk]
    repeat' split
    all_goals exact ⟨_, rfl⟩

/-- Witness for C10: the inline-message-only primary option and the
message-only summary option both write their text file first. -/
theorem claim_C10_write_before_dispatch_witness :
    (getD [("abcd1234".toList, "hi".toList),
           (summaryPre ++ "abcd1234".toList, "sum".toList)]
        "abcd1234".toList ≠ [] ∧
      ∃ rest,
        (handle_output_choice
            [("abcd1234".toList, "hi".toList),
             (summaryPre ++ "abcd1234".toList, "sum".toList)]
            ("output_message".toList ++ '|' :: "abcd1234".toList)
            (.ok ⟨[], []⟩) (.ok ())).2 =
          .answerCallback ::
            .wroteFile (txtPath "abcd1234".toList)
              (getD [("abcd1234".toList, "hi".toList),
                     (summaryPre ++ "abcd1234".toList, "sum".toList)]
                "abcd1234".toList) :: rest) ∧
      ∃ rest,
        (handle_output_choice
            [("abcd1234".toList, "hi".toList),
             (summaryPre ++ "abcd1234".toList, "sum".toList)]
            ("summary_message".toList ++ '|' :: "abcd1234".toList)
            (.ok ⟨[], []⟩) (.ok ())).2 =
          .answerCallback ::
            .wroteFile (txtPath (summaryPre ++ "abcd1234".toList))
              (getD [("abcd1234".toList, "hi".toList),
                     (summaryPre ++ "abcd1234".toList, "sum".toList)]
                (summaryPre ++ "abcd1234".toList)) :: rest :=
  ⟨⟨by decide,
      (claim_C10_write_before_dispatch
          [("abcd1234".toList, "hi".toList),
           (summaryPre ++ "abcd1234".toList, "sum".toList)]
          "output_message".toList "abcd1234".toList (.ok ⟨[], []⟩)
          (by decide) (by decide)).1 (by decide) (by decide) (by decide)⟩,
    (claim_C10_write_before_dispatch
        [("abcd1234".toList, "hi".toList),
         (summaryPre ++ "abcd1234".toList, "sum".toList)]
        "summary_message".toList "abcd1234".toList (.ok ⟨[], []⟩)
        (by decide) (by decide)).2 (by decide) (by decide) (by decide)
      (by decide)⟩

end DocumentBot
